import Mathlib

/-!
Verification of the configuration subsystem of `src/config.py`
(ai-goofish-monitor): the whitelist-gated config cache over the process
environment, sensitive-value masking, AI client (re)initialization with its
proxy side effects, and the AI request-parameter builder.

The process environment (`os.environ` / `os.getenv`) is modelled as a
function from keys to optional string values, and the module-level cache
dict `_ai_config_cache` as a function from keys to an optional cached value
(the cached value itself is an optional string, since `None` can be stored
through `update_ai_config_cache`).
-/

namespace GoofishConfig

/-- The process environment store: key to optional string value. -/
abbrev Env := String → Option String

/-- The config cache `_ai_config_cache`: key to optionally-present cached
value; a cached value is itself an optional string. -/
abbrev Cache := String → Option (Option String)

/-- The empty environment. -/
def emptyEnv : Env := fun _ => none

/-- The empty cache. -/
def emptyCache : Cache := fun _ => none

/-- `os.getenv(key, default)`: the stored value when present, else the
default. -/
def os_getenv (e : Env) (key : String) (dflt : Option String) : Option String :=
  match e key with
  | some v => some v
  | none => dflt

/-- `os.environ[key] = v`. -/
def envSet (e : Env) (key v : String) : Env :=
  fun k => if k = key then some v else e k

/-- `os.environ.pop(key, None)`. -/
def envPop (e : Env) (key : String) : Env :=
  fun k => if k = key then none else e k

/-- Setting a key in the cache dict. -/
def cacheSet (c : Cache) (key : String) (v : Option String) : Cache :=
  fun k => if k = key then some v else c k

/-- Python truthiness of an optional string: `None` and `""` are falsy. -/
def truthy : Option String → Bool
  | none => false
  | some s => s != ""

/-- The whitelist `_CONFIG_CACHE_KEYS` of config keys eligible for caching. -/
def CONFIG_CACHE_KEYS : List String :=
  ["OPENAI_API_KEY", "OPENAI_BASE_URL", "OPENAI_MODEL_NAME", "PROXY_URL",
   "NTFY_TOPIC_URL", "GOTIFY_URL", "GOTIFY_TOKEN", "BARK_URL",
   "WX_BOT_URL", "TELEGRAM_BOT_TOKEN", "TELEGRAM_CHAT_ID",
   "WEBHOOK_URL", "WEBHOOK_METHOD", "WEBHOOK_HEADERS", "WEBHOOK_CONTENT_TYPE",
   "WEBHOOK_QUERY_PARAMETERS", "WEBHOOK_BODY",
   "PCURL_TO_MOBILE", "RUN_HEADLESS", "LOGIN_IS_EDGE", "RUNNING_IN_DOCKER",
   "AI_DEBUG_MODE", "SKIP_AI_ANALYSIS", "ENABLE_THINKING", "ENABLE_RESPONSE_FORMAT",
   "WEBHOOK_ENABLE_MARKDOWN"]

/-- The fixed secret-classified key set of `_mask_sensitive_value`. -/
def sensitive_keys : List String :=
  ["OPENAI_API_KEY", "GOTIFY_TOKEN", "TELEGRAM_BOT_TOKEN", "WX_BOT_URL"]

/-- `_mask_sensitive_value(key, value)`: redacts secret-classified values
for log output. -/
def _mask_sensitive_value (key value : String) : String :=
  if key ∈ sensitive_keys ∧ value ≠ "" then
    if value.length > 8 then
      value.take 4 ++ "****" ++ value.drop (value.length - 4)
    else
      "****"
  else
    value

/-- `get_ai_config(key, default)`: read a config value through the cache.
Returns the value together with the possibly-updated cache. -/
def get_ai_config (env : Env) (cache : Cache) (key : String) (dflt : Option String) :
    Option String × Cache :=
  if key ∉ CONFIG_CACHE_KEYS then
    (os_getenv env key dflt, cache)
  else
    match cache key with
    | some v => (v, cache)
    | none =>
      let value := os_getenv env key dflt
      if truthy value then
        (value, cacheSet cache key value)
      else
        (value, cache)

/-- `update_ai_config_cache(settings)`: filter the settings to whitelisted
keys, write every filtered entry into the cache verbatim, and write truthy
filtered values into the environment while popping falsy ones. Returns the
updated environment and cache. -/
def update_ai_config_cache (env : Env) (cache : Cache)
    (settings : List (String × Option String)) : Env × Cache :=
  let filtered := settings.filter (fun p => decide (p.1 ∈ CONFIG_CACHE_KEYS))
  let cache' := filtered.foldl (fun c p => cacheSet c p.1 p.2) cache
  let env' := filtered.foldl
    (fun e p => if truthy p.2 then envSet e p.1 (p.2.getD "") else envPop e p.1) env
  (env', cache')

/-- `clear_ai_config_cache()`: the cache after clearing. -/
def clear_ai_config_cache : Cache := emptyCache

/-- `get_ai_config_cache()`: a snapshot (copy) of the cache. -/
def get_ai_config_cache (cache : Cache) : Cache := cache

/-- The AI client handle, modelling `AsyncOpenAI(api_key=..., base_url=...)`:
an opaque bundle of the construction arguments. -/
structure AIClient where
  api_key : Option String
  base_url : Option String
deriving DecidableEq

/-- A constructor for the external client library: it either yields a handle
or raises an error (modelled as `Except` with an error message). -/
abbrev Construct := Option String → Option String → Except String AIClient

/-- The four config reads performed at the start of `init_ai_client`,
threading the cache through the successive `get_ai_config` calls. -/
structure ReadCfg where
  api_key : Option String
  base_url : Option String
  model_name : Option String
  proxy_url : Option String
  cache : Cache

/-- The config reads of `init_ai_client`: api key, base URL, model name and
proxy URL, each via `get_ai_config`, plus the resulting cache. -/
def init_reads (env : Env) (cache : Cache) : ReadCfg :=
  let r1 := get_ai_config env cache "OPENAI_API_KEY" none
  let r2 := get_ai_config env r1.2 "OPENAI_BASE_URL" none
  let r3 := get_ai_config env r2.2 "OPENAI_MODEL_NAME" none
  let r4 := get_ai_config env r3.2 "PROXY_URL" none
  ⟨r1.1, r2.1, r3.1, r4.1, r4.2⟩

/-- The full post-state of `init_ai_client`: return value, environment,
cache, and the global `client` slot. -/
structure InitResult where
  success : Bool
  env : Env
  cache : Cache
  client : Option AIClient

/-- `init_ai_client()`: re-read the config, bail out (clearing the client
slot) when base URL or model name is falsy, otherwise set or pop the proxy
environment entries and construct a fresh client, catching any construction
error. `client0` is the prior content of the global `client` slot. -/
def init_ai_client (construct : Construct) (env : Env) (cache : Cache)
    (_client0 : Option AIClient) : InitResult :=
  let r := init_reads env cache
  if !(truthy r.base_url && truthy r.model_name) then
    ⟨false, env, r.cache, none⟩
  else
    let env' :=
      if truthy r.proxy_url then
        envSet (envSet env "HTTP_PROXY" (r.proxy_url.getD ""))
          "HTTPS_PROXY" (r.proxy_url.getD "")
      else
        envPop (envPop env "HTTP_PROXY") "HTTPS_PROXY"
    match construct r.api_key r.base_url with
    | Except.ok c => ⟨true, env', r.cache, some c⟩
    | Except.error _ => ⟨false, env', r.cache, none⟩

/-- A Python value as it appears in AI request keyword arguments. -/
inductive PyVal where
  | bool : Bool → PyVal
  | str : String → PyVal
  | dict : List (String × PyVal) → PyVal

/-- Keyword arguments: a Python dict from string keys to values, modelled as
an association list with distinct keys. -/
abbrev Kwargs := List (String × PyVal)

/-- Dict lookup on kwargs. -/
def lookupKw : Kwargs → String → Option PyVal
  | [], _ => none
  | p :: rest, k => if p.1 = k then some p.2 else lookupKw rest k

/-- Dict assignment `d[k] = v`: replace in place when present, else append. -/
def setKw : Kwargs → String → PyVal → Kwargs
  | [], k, v => [(k, v)]
  | p :: rest, k, v => if p.1 = k then (k, v) :: rest else p :: setKw rest k v

/-- Dict deletion `del d[k]`. -/
def delKw : Kwargs → String → Kwargs
  | [], _ => []
  | p :: rest, k => if p.1 = k then delKw rest k else p :: delKw rest k

/-- Dict membership `k in d`. -/
def containsKw (l : Kwargs) (k : String) : Bool :=
  (lookupKw l k).isSome

/-- The nested extra option injected when the thinking toggle is on. -/
def thinkingExtraBody : PyVal :=
  PyVal.dict [("enable_thinking", PyVal.bool false)]

/-- `get_ai_request_params(**kwargs)`, with the module-level toggles
`ENABLE_THINKING` and `ENABLE_RESPONSE_FORMAT` passed explicitly. -/
def get_ai_request_params (enable_thinking enable_response_format : Bool)
    (kwargs : Kwargs) : Kwargs :=
  let kwargs1 :=
    if enable_thinking then setKw kwargs "extra_body" thinkingExtraBody else kwargs
  if !enable_response_format && containsKw kwargs1 "response_format" then
    delKw kwargs1 "response_format"
  else
    kwargs1

/-- The string a `get_ai_config` result denotes when the source immediately
calls a string method on it (the defaults used there are never `None`). -/
def pyStr : Option String → String
  | some s => s
  | none => ""

/-- Python `str.lower()`: character-wise lowercasing. -/
def pyLower (s : String) : String := String.mk (s.data.map Char.toLower)

/-- Python `str.upper()`: character-wise uppercasing. -/
def pyUpper (s : String) : String := String.mk (s.data.map Char.toUpper)

/-- Module-level `PCURL_TO_MOBILE`. -/
def PCURL_TO_MOBILE (env : Env) (cache : Cache) : Bool :=
  pyLower (pyStr (get_ai_config env cache "PCURL_TO_MOBILE" (some "false")).1) == "true"

/-- Module-level `RUN_HEADLESS`. -/
def RUN_HEADLESS (env : Env) (cache : Cache) : Bool :=
  pyLower (pyStr (get_ai_config env cache "RUN_HEADLESS" (some "true")).1) != "false"

/-- Module-level `LOGIN_IS_EDGE`. -/
def LOGIN_IS_EDGE (env : Env) (cache : Cache) : Bool :=
  pyLower (pyStr (get_ai_config env cache "LOGIN_IS_EDGE" (some "false")).1) == "true"

/-- Module-level `RUNNING_IN_DOCKER`. -/
def RUNNING_IN_DOCKER (env : Env) (cache : Cache) : Bool :=
  pyLower (pyStr (get_ai_config env cache "RUNNING_IN_DOCKER" (some "false")).1) == "true"

/-- Module-level `AI_DEBUG_MODE`. -/
def AI_DEBUG_MODE (env : Env) (cache : Cache) : Bool :=
  pyLower (pyStr (get_ai_config env cache "AI_DEBUG_MODE" (some "false")).1) == "true"

/-- Module-level `SKIP_AI_ANALYSIS`. -/
def SKIP_AI_ANALYSIS (env : Env) (cache : Cache) : Bool :=
  pyLower (pyStr (get_ai_config env cache "SKIP_AI_ANALYSIS" (some "false")).1) == "true"

/-- Module-level `ENABLE_THINKING`. -/
def ENABLE_THINKING (env : Env) (cache : Cache) : Bool :=
  pyLower (pyStr (get_ai_config env cache "ENABLE_THINKING" (some "false")).1) == "true"

/-- Module-level `ENABLE_RESPONSE_FORMAT`. -/
def ENABLE_RESPONSE_FORMAT (env : Env) (cache : Cache) : Bool :=
  pyLower (pyStr (get_ai_config env cache "ENABLE_RESPONSE_FORMAT" (some "true")).1) == "true"

/-- Module-level `WEBHOOK_ENABLE_MARKDOWN`. -/
def WEBHOOK_ENABLE_MARKDOWN (env : Env) (cache : Cache) : Bool :=
  pyLower (pyStr (get_ai_config env cache "WEBHOOK_ENABLE_MARKDOWN" (some "false")).1) == "true"

/-- Module-level `WEBHOOK_METHOD`: defaults to "POST" and is upper-cased. -/
def WEBHOOK_METHOD (env : Env) (cache : Cache) : String :=
  pyUpper (pyStr (get_ai_config env cache "WEBHOOK_METHOD" (some "POST")).1)

/-- Module-level `WEBHOOK_CONTENT_TYPE`: defaults to "JSON" and is
upper-cased. -/
def WEBHOOK_CONTENT_TYPE (env : Env) (cache : Cache) : String :=
  pyUpper (pyStr (get_ai_config env cache "WEBHOOK_CONTENT_TYPE" (some "JSON")).1)

/-- The cache-whitelist invariant: every key present in the cache is a
member of the whitelist. -/
def CacheWF (cache : Cache) : Prop :=
  ∀ k, cache k ≠ none → k ∈ CONFIG_CACHE_KEYS

/-- Iterating `get_ai_config` on the same key and default any number of
times, keeping the cache. -/
def iter_get (env : Env) (key : String) (dflt : Option String) : Nat → Cache → Cache
  | 0, c => c
  | n + 1, c => iter_get env key dflt n (get_ai_config env c key dflt).2

/-- The boolean-flag parse as the specification's words claim it for every
boolean feature flag: true exactly when the stored value is present and
case-insensitively equal to "true", false otherwise, including when the
value is absent. Stated from the spec for comparison with the code. -/
def claimed_bool_parse : Option String → Bool
  | some s => pyLower s == "true"
  | none => false

/-- A concrete environment with complete base settings. -/
def envEx : Env := fun k =>
  if k = "OPENAI_BASE_URL" then some "https://api.example.com"
  else if k = "OPENAI_MODEL_NAME" then some "model-x"
  else none

/-- A concrete environment with complete base settings and a proxy URL. -/
def envExProxy : Env := fun k =>
  if k = "OPENAI_BASE_URL" then some "https://api.example.com"
  else if k = "OPENAI_MODEL_NAME" then some "model-x"
  else if k = "PROXY_URL" then some "http://10.0.0.1:8080"
  else none

/-- A concrete environment missing the model name. -/
def envBaseOnly : Env := fun k =>
  if k = "OPENAI_BASE_URL" then some "https://api.example.com" else none

/-- A concrete environment setting two boolean feature flags. -/
def envFlags : Env := fun k =>
  if k = "PCURL_TO_MOBILE" then some "TRUE"
  else if k = "RUN_HEADLESS" then some "False"
  else none

/-- A client constructor that always succeeds. -/
def constructOk : Construct := fun k b => Except.ok ⟨k, b⟩

/-- A client constructor that always raises. -/
def constructFail : Construct := fun _ _ => Except.error "boom"

/-! ## Helper lemmas -/

theorem emptyCache_WF : CacheWF emptyCache := by
  intro k hk
  exact absurd rfl hk

theorem get_ai_config_fst (env : Env) (cache : Cache) (key : String)
    (dflt : Option String) (hc : cache key = none) :
    (get_ai_config env cache key dflt).1 = os_getenv env key dflt := by
  by_cases hk : key ∉ CONFIG_CACHE_KEYS
  · simp [get_ai_config, hk]
  · simp only [get_ai_config, hk, if_false, hc]
    split <;> rfl

theorem get_ai_config_snd_not_whitelisted (env : Env) (cache : Cache)
    (key : String) (dflt : Option String) (hk : key ∉ CONFIG_CACHE_KEYS) :
    (get_ai_config env cache key dflt).2 = cache := by
  simp [get_ai_config, hk]

theorem cacheSet_preserves_WF (c : Cache) (key : String) (v : Option String)
    (hkey : key ∈ CONFIG_CACHE_KEYS) (h : CacheWF c) : CacheWF (cacheSet c key v) := by
  intro k hk
  by_cases hkk : k = key
  · subst hkk
    exact hkey
  · exact h k (by simpa [cacheSet, hkk] using hk)

theorem foldl_cacheSet_WF (l : List (String × Option String)) (c : Cache)
    (hl : ∀ p ∈ l, p.1 ∈ CONFIG_CACHE_KEYS) (h : CacheWF c) :
    CacheWF (l.foldl (fun c p => cacheSet c p.1 p.2) c) := by
  induction l generalizing c with
  | nil => exact h
  | cons p rest ih =>
    exact ih _ (fun q hq => hl q (List.mem_cons_of_mem _ hq))
      (cacheSet_preserves_WF c p.1 p.2 (hl p (List.mem_cons_self _ _)) h)

theorem lookupKw_setKw_self (l : Kwargs) (k : String) (v : PyVal) :
    lookupKw (setKw l k v) k = some v := by
  induction l with
  | nil => simp [setKw, lookupKw]
  | cons p rest ih =>
    by_cases hp : p.1 = k
    · simp [setKw, hp, lookupKw]
    · simp [setKw, hp, lookupKw, ih]

theorem lookupKw_setKw_ne (l : Kwargs) (k k' : String) (v : PyVal) (h : k' ≠ k) :
    lookupKw (setKw l k v) k' = lookupKw l k' := by
  induction l with
  | nil => simp [setKw, lookupKw, Ne.symm h]
  | cons p rest ih =>
    by_cases hp : p.1 = k
    · subst hp
      simp [setKw, lookupKw, Ne.symm h]
    · simp [setKw, hp, lookupKw, ih]

theorem lookupKw_delKw_self (l : Kwargs) (k : String) :
    lookupKw (delKw l k) k = none := by
  induction l with
  | nil => rfl
  | cons p rest ih =>
    by_cases hp : p.1 = k
    · simpa [delKw, hp] using ih
    · simpa [delKw, lookupKw, hp] using ih

theorem lookupKw_delKw_ne (l : Kwargs) (k k' : String) (h : k' ≠ k) :
    lookupKw (delKw l k) k' = lookupKw l k' := by
  induction l with
  | nil => rfl
  | cons p rest ih =>
    by_cases hp : p.1 = k
    · subst hp
      simpa [delKw, lookupKw, Ne.symm h] using ih
    · by_cases hpk : p.1 = k'
      · simp [delKw, lookupKw, hp, hpk, h]
      · simp [delKw, lookupKw, hp, hpk, ih]

theorem foldl_cacheSet_not_mem (l : List (String × Option String)) (c : Cache)
    (k : String) (hk : k ∉ l.map Prod.fst) :
    (l.foldl (fun c p => cacheSet c p.1 p.2) c) k = c k := by
  induction l generalizing c with
  | nil => rfl
  | cons p rest ih =>
    have hk1 : k ≠ p.1 := fun h => hk (by simp [h])
    have hk2 : k ∉ rest.map Prod.fst := fun h => hk (by simp [h])
    rw [List.foldl_cons, ih _ hk2]
    simp [cacheSet, hk1]

theorem foldl_cacheSet_mem (l : List (String × Option String)) (c : Cache)
    (k : String) (v : Option String) (hnd : (l.map Prod.fst).Nodup)
    (hmem : (k, v) ∈ l) :
    (l.foldl (fun c p => cacheSet c p.1 p.2) c) k = some v := by
  induction l generalizing c with
  | nil => cases hmem
  | cons p rest ih =>
    rw [List.map_cons, List.nodup_cons] at hnd
    rw [List.foldl_cons]
    rcases List.mem_cons.mp hmem with h | h
    · have hk : k ∉ rest.map Prod.fst := by
        rw [← h] at hnd
        exact hnd.1
      rw [foldl_cacheSet_not_mem rest _ k hk, ← h]
      simp [cacheSet]
    · exact ih _ hnd.2 h

theorem foldl_envUpd_not_mem (l : List (String × Option String)) (e : Env)
    (k : String) (hk : k ∉ l.map Prod.fst) :
    (l.foldl (fun e p =>
      if truthy p.2 then envSet e p.1 (p.2.getD "") else envPop e p.1) e) k = e k := by
  induction l generalizing e with
  | nil => rfl
  | cons p rest ih =>
    have hk1 : k ≠ p.1 := fun h => hk (by simp [h])
    have hk2 : k ∉ rest.map Prod.fst := fun h => hk (by simp [h])
    rw [List.foldl_cons, ih _ hk2]
    by_cases ht : truthy p.2 <;> simp [ht, envSet, envPop, hk1]

theorem foldl_envUpd_mem (l : List (String × Option String)) (e : Env)
    (k : String) (v : Option String) (hnd : (l.map Prod.fst).Nodup)
    (hmem : (k, v) ∈ l) :
    (l.foldl (fun e p =>
      if truthy p.2 then envSet e p.1 (p.2.getD "") else envPop e p.1) e) k =
      if truthy v then some (v.getD "") else none := by
  induction l generalizing e with
  | nil => cases hmem
  | cons p rest ih =>
    rw [List.map_cons, List.nodup_cons] at hnd
    rw [List.foldl_cons]
    rcases List.mem_cons.mp hmem with h | h
    · have hk : k ∉ rest.map Prod.fst := by
        rw [← h] at hnd
        exact hnd.1
      rw [foldl_envUpd_not_mem rest _ k hk, ← h]
      by_cases ht : truthy v <;> simp [ht, envSet, envPop]
    · exact ih _ hnd.2 h

theorem lookupKw_after_del_filter (l : Kwargs) (k : String) :
    lookupKw (if containsKw l k then delKw l k else l) k = none := by
  cases hcont : containsKw l k with
  | false =>
    rw [if_neg (by decide)]
    cases hl : lookupKw l k with
    | none => rfl
    | some v => simp [containsKw, hl] at hcont
  | true =>
    rw [if_pos rfl]
    exact lookupKw_delKw_self l k

/-! ## Claim theorems -/

/-- C7: `_mask_sensitive_value` returns the first four characters, the
marker "****" and the last four characters when the key is secret-classified
and the value is non-empty and longer than eight characters; the short
marker "****" when the key is secret-classified and the value is non-empty
of length at most eight; and the value unchanged for any key outside the
secret-classified set; with the three concrete examples from the spec. -/
theorem mask_sensitive_value_spec (key value : String) :
    (key ∈ sensitive_keys → value ≠ "" → 8 < value.length →
      _mask_sensitive_value key value =
        value.take 4 ++ "****" ++ value.drop (value.length - 4)) ∧
    (key ∈ sensitive_keys → value ≠ "" → value.length ≤ 8 →
      _mask_sensitive_value key value = "****") ∧
    (key ∉ sensitive_keys → _mask_sensitive_value key value = value) ∧
    _mask_sensitive_value "OPENAI_API_KEY" "sk-abcdefghij" = "sk-a****ghij" ∧
    _mask_sensitive_value "OPENAI_API_KEY" "short" = "****" ∧
    _mask_sensitive_value "OPENAI_BASE_URL" "http://x" = "http://x" := by
  refine ⟨?_, ?_, ?_, by decide, by decide, by decide⟩
  · intro h1 h2 h3
    simp [_mask_sensitive_value, h1, h2, h3]
  · intro h1 h2 h3
    simp [_mask_sensitive_value, h1, h2, Nat.not_lt.mpr h3]
  · intro h1
    simp [_mask_sensitive_value, h1]

/-- Witness for C7: the three hypothetical cases of
`mask_sensitive_value_spec` evaluated at concrete keys and values. -/
theorem mask_sensitive_value_spec_witness :
    _mask_sensitive_value "GOTIFY_TOKEN" "123456789" = "1234****6789" ∧
    _mask_sensitive_value "TELEGRAM_BOT_TOKEN" "abc" = "****" ∧
    _mask_sensitive_value "SOME_PLAIN_KEY" "bar" = "bar" := by
  refine ⟨?_, ?_, ?_⟩
  · have h := (mask_sensitive_value_spec "GOTIFY_TOKEN" "123456789").1
      (by decide) (by decide) (by decide)
    rw [h]
    decide
  · exact (mask_sensitive_value_spec "TELEGRAM_BOT_TOKEN" "abc").2.1
      (by decide) (by decide) (by decide)
  · exact (mask_sensitive_value_spec "SOME_PLAIN_KEY" "bar").2.2.1 (by decide)

/-- C1: `get_ai_config` on a non-whitelisted key reads the environment with
the default and leaves the cache untouched; on a whitelisted key it returns
the cached value when one is present, and otherwise reads the environment
with the default, caching the result if and only if it is truthy. -/
theorem get_ai_config_spec (env : Env) (cache : Cache) (key : String)
    (dflt : Option String) :
    (key ∉ CONFIG_CACHE_KEYS →
      get_ai_config env cache key dflt = (os_getenv env key dflt, cache)) ∧
    (key ∈ CONFIG_CACHE_KEYS →
      (∀ v, cache key = some v → get_ai_config env cache key dflt = (v, cache)) ∧
      (cache key = none →
        get_ai_config env cache key dflt =
          (os_getenv env key dflt,
            if truthy (os_getenv env key dflt) then
              cacheSet cache key (os_getenv env key dflt)
            else cache))) := by
  refine ⟨fun h => ?_, fun h => ⟨fun v hv => ?_, fun hnone => ?_⟩⟩
  · simp [get_ai_config, h]
  · simp [get_ai_config, h, hv]
  · simp only [get_ai_config, h, not_true_eq_false, if_false, hnone]
    split <;> simp_all

/-- Witness for C1: the three cases of `get_ai_config_spec` at concrete
inputs — a non-whitelisted key, a whitelisted cache miss, and a whitelisted
cache hit. -/
theorem get_ai_config_spec_witness :
    get_ai_config envEx emptyCache "SOME_OTHER_KEY" (some "d") =
      (some "d", emptyCache) ∧
    get_ai_config envEx emptyCache "OPENAI_BASE_URL" none =
      (some "https://api.example.com",
        cacheSet emptyCache "OPENAI_BASE_URL" (some "https://api.example.com")) ∧
    get_ai_config envEx (cacheSet emptyCache "OPENAI_MODEL_NAME" (some "cached-model"))
        "OPENAI_MODEL_NAME" none =
      (some "cached-model", cacheSet emptyCache "OPENAI_MODEL_NAME" (some "cached-model")) := by
  refine ⟨?_, ?_, ?_⟩
  · exact (get_ai_config_spec envEx emptyCache "SOME_OTHER_KEY" (some "d")).1 (by decide)
  · have h := ((get_ai_config_spec envEx emptyCache "OPENAI_BASE_URL" none).2
      (by decide)).2 rfl
    rw [h]
    rfl
  · exact ((get_ai_config_spec envEx
      (cacheSet emptyCache "OPENAI_MODEL_NAME" (some "cached-model"))
      "OPENAI_MODEL_NAME" none).2 (by decide)).1 (some "cached-model") rfl

/-- C2: `update_ai_config_cache`, for every settings mapping (a dict, so
with distinct keys): entries whose key is outside the whitelist are silently
dropped and leave the cache and environment untouched at that key; every
whitelist-filtered entry is written into the cache verbatim, including falsy
values such as the empty string; each filtered entry with a truthy value is
written into the environment and is read back by `get_ai_config`, while each
filtered entry with a falsy value causes the environment entry to be
removed. -/
theorem update_ai_config_cache_spec (env : Env) (cache : Cache) :
    (∀ settings, update_ai_config_cache env cache settings =
      update_ai_config_cache env cache
        (settings.filter (fun p => decide (p.1 ∈ CONFIG_CACHE_KEYS)))) ∧
    (∀ settings k, k ∉ CONFIG_CACHE_KEYS →
      (update_ai_config_cache env cache settings).2 k = cache k ∧
      (update_ai_config_cache env cache settings).1 k = env k) ∧
    (∀ settings k v, (settings.map Prod.fst).Nodup → (k, v) ∈ settings →
      k ∈ CONFIG_CACHE_KEYS →
      (update_ai_config_cache env cache settings).2 k = some v ∧
      (truthy v = true →
        (update_ai_config_cache env cache settings).1 k = v ∧
        (get_ai_config (update_ai_config_cache env cache settings).1
          (update_ai_config_cache env cache settings).2 k none).1 = v) ∧
      (truthy v = false →
        (update_ai_config_cache env cache settings).1 k = none)) := by
  refine ⟨fun settings => ?_, fun settings k hk => ?_,
    fun settings k v hnd hmem hw => ?_⟩
  · simp [update_ai_config_cache, List.filter_filter]
  · have hkf : k ∉ (settings.filter
        (fun p => decide (p.1 ∈ CONFIG_CACHE_KEYS))).map Prod.fst := by
      intro hmm
      rcases List.mem_map.mp hmm with ⟨p, hp, hpk⟩
      exact hk (hpk ▸ of_decide_eq_true (List.mem_filter.mp hp).2)
    exact ⟨by simpa only [update_ai_config_cache] using
        foldl_cacheSet_not_mem _ cache k hkf,
      by simpa only [update_ai_config_cache] using
        foldl_envUpd_not_mem _ env k hkf⟩
  · have hmf : (k, v) ∈ settings.filter
        (fun p => decide (p.1 ∈ CONFIG_CACHE_KEYS)) :=
      List.mem_filter.mpr ⟨hmem, decide_eq_true hw⟩
    have hndf : ((settings.filter
        (fun p => decide (p.1 ∈ CONFIG_CACHE_KEYS))).map Prod.fst).Nodup :=
      hnd.sublist ((List.filter_sublist settings).map Prod.fst)
    have hc2 : (update_ai_config_cache env cache settings).2 k = some v := by
      simpa only [update_ai_config_cache] using
        foldl_cacheSet_mem _ cache k v hndf hmf
    have he : (update_ai_config_cache env cache settings).1 k =
        if truthy v then some (v.getD "") else none := by
      simpa only [update_ai_config_cache] using
        foldl_envUpd_mem _ env k v hndf hmf
    refine ⟨hc2, fun ht => ⟨?_, ?_⟩, fun ht => ?_⟩
    · rw [he, if_pos ht]
      cases v with
      | none => simp [truthy] at ht
      | some s => rfl
    · simp only [get_ai_config, hw, not_true_eq_false, if_false, hc2]
    · rw [he, if_neg (by simp [ht])]

/-- Witness for C2: `update_ai_config_cache_spec` on a concrete three-entry
settings mapping — a non-whitelisted entry, a truthy whitelisted entry, and
an empty-string whitelisted entry, all in one update. -/
theorem update_ai_config_cache_spec_witness :
    (update_ai_config_cache envEx emptyCache
      [("NOT_A_KEY", some "x"), ("WEBHOOK_URL", some "http://w"),
        ("BARK_URL", some "")]).2 "NOT_A_KEY" = emptyCache "NOT_A_KEY" ∧
    (update_ai_config_cache envEx emptyCache
      [("NOT_A_KEY", some "x"), ("WEBHOOK_URL", some "http://w"),
        ("BARK_URL", some "")]).1 "NOT_A_KEY" = envEx "NOT_A_KEY" ∧
    (update_ai_config_cache envEx emptyCache
      [("NOT_A_KEY", some "x"), ("WEBHOOK_URL", some "http://w"),
        ("BARK_URL", some "")]).2 "WEBHOOK_URL" = some (some "http://w") ∧
    (update_ai_config_cache envEx emptyCache
      [("NOT_A_KEY", some "x"), ("WEBHOOK_URL", some "http://w"),
        ("BARK_URL", some "")]).1 "WEBHOOK_URL" = some "http://w" ∧
    (get_ai_config
      (update_ai_config_cache envEx emptyCache
        [("NOT_A_KEY", some "x"), ("WEBHOOK_URL", some "http://w"),
          ("BARK_URL", some "")]).1
      (update_ai_config_cache envEx emptyCache
        [("NOT_A_KEY", some "x"), ("WEBHOOK_URL", some "http://w"),
          ("BARK_URL", some "")]).2
      "WEBHOOK_URL" none).1 = some "http://w" ∧
    (update_ai_config_cache envEx emptyCache
      [("NOT_A_KEY", some "x"), ("WEBHOOK_URL", some "http://w"),
        ("BARK_URL", some "")]).2 "BARK_URL" = some (some "") ∧
    (update_ai_config_cache envEx emptyCache
      [("NOT_A_KEY", some "x"), ("WEBHOOK_URL", some "http://w"),
        ("BARK_URL", some "")]).1 "BARK_URL" = none := by
  refine ⟨?_, ?_, ?_, ?_, ?_, ?_, ?_⟩
  · exact ((update_ai_config_cache_spec envEx emptyCache).2.1
      [("NOT_A_KEY", some "x"), ("WEBHOOK_URL", some "http://w"),
        ("BARK_URL", some "")] "NOT_A_KEY" (by decide)).1
  · exact ((update_ai_config_cache_spec envEx emptyCache).2.1
      [("NOT_A_KEY", some "x"), ("WEBHOOK_URL", some "http://w"),
        ("BARK_URL", some "")] "NOT_A_KEY" (by decide)).2
  · exact ((update_ai_config_cache_spec envEx emptyCache).2.2
      [("NOT_A_KEY", some "x"), ("WEBHOOK_URL", some "http://w"),
        ("BARK_URL", some "")] "WEBHOOK_URL" (some "http://w")
      (by decide) (by decide) (by decide)).1
  · exact (((update_ai_config_cache_spec envEx emptyCache).2.2
      [("NOT_A_KEY", some "x"), ("WEBHOOK_URL", some "http://w"),
        ("BARK_URL", some "")] "WEBHOOK_URL" (some "http://w")
      (by decide) (by decide) (by decide)).2.1 (by decide)).1
  · exact (((update_ai_config_cache_spec envEx emptyCache).2.2
      [("NOT_A_KEY", some "x"), ("WEBHOOK_URL", some "http://w"),
        ("BARK_URL", some "")] "WEBHOOK_URL" (some "http://w")
      (by decide) (by decide) (by decide)).2.1 (by decide)).2
  · exact ((update_ai_config_cache_spec envEx emptyCache).2.2
      [("NOT_A_KEY", some "x"), ("WEBHOOK_URL", some "http://w"),
        ("BARK_URL", some "")] "BARK_URL" (some "")
      (by decide) (by decide) (by decide)).1
  · exact ((update_ai_config_cache_spec envEx emptyCache).2.2
      [("NOT_A_KEY", some "x"), ("WEBHOOK_URL", some "http://w"),
        ("BARK_URL", some "")] "BARK_URL" (some "")
      (by decide) (by decide) (by decide)).2.2 (by decide)

/-- C3: every key present in the cache is whitelisted, and this invariant is
preserved by `get_ai_config`, `update_ai_config_cache` and
`clear_ai_config_cache` (which only removes entries); moreover
`get_ai_config` of a non-whitelisted key, iterated any number of times,
leaves the snapshot unchanged. -/
theorem cache_whitelist_invariant (env : Env) (cache : Cache) (key : String)
    (dflt : Option String) (settings : List (String × Option String)) :
    (CacheWF cache → CacheWF (get_ai_config env cache key dflt).2) ∧
    (CacheWF cache → CacheWF (update_ai_config_cache env cache settings).2) ∧
    CacheWF clear_ai_config_cache ∧
    (key ∉ CONFIG_CACHE_KEYS → ∀ n,
      get_ai_config_cache (iter_get env key dflt n cache) =
        get_ai_config_cache cache) := by
  refine ⟨fun h => ?_, fun h => ?_, ?_, fun hk n => ?_⟩
  · by_cases hkk : key ∉ CONFIG_CACHE_KEYS
    · rw [get_ai_config_snd_not_whitelisted env cache key dflt hkk]
      exact h
    · cases hc : cache key with
      | some v =>
        have h2 : (get_ai_config env cache key dflt).2 = cache := by
          simp [get_ai_config, hkk, hc]
        rw [h2]
        exact h
      | none =>
        simp only [get_ai_config, hkk, if_false, hc]
        split
        · exact cacheSet_preserves_WF cache key _ (not_not.mp hkk) h
        · exact h
  · simp only [update_ai_config_cache]
    refine foldl_cacheSet_WF _ cache (fun p hp => ?_) h
    exact of_decide_eq_true (List.mem_filter.mp hp).2
  · intro k hkk
    exact absurd rfl hkk
  · induction n with
    | zero => rfl
    | succ n ih =>
      simp only [iter_get]
      rw [get_ai_config_snd_not_whitelisted env cache key dflt hk]
      exact ih

/-- Witness for C3: the invariant holds after a concrete read, after a
concrete mixed update, and three iterated reads of a non-whitelisted key
leave the empty snapshot empty. -/
theorem cache_whitelist_invariant_witness :
    CacheWF (get_ai_config envEx emptyCache "OPENAI_BASE_URL" none).2 ∧
    CacheWF (update_ai_config_cache envEx emptyCache
      [("WEBHOOK_URL", some "http://w"), ("NOT_A_KEY", some "x")]).2 ∧
    get_ai_config_cache (iter_get envEx "NOT_A_KEY" none 3 emptyCache) =
      get_ai_config_cache emptyCache := by
  refine ⟨?_, ?_, ?_⟩
  · exact (cache_whitelist_invariant envEx emptyCache "OPENAI_BASE_URL" none []).1
      emptyCache_WF
  · exact (cache_whitelist_invariant envEx emptyCache "OPENAI_BASE_URL" none
      [("WEBHOOK_URL", some "http://w"), ("NOT_A_KEY", some "x")]).2.1 emptyCache_WF
  · exact (cache_whitelist_invariant envEx emptyCache "NOT_A_KEY" none []).2.2.2
      (by decide) 3

/-- C4: when the resolved base URL or model name is falsy, `init_ai_client`
sets the client slot to absent, returns failure, and leaves both proxy
entries of the environment exactly as they were. -/
theorem init_missing_config_spec (construct : Construct) (env : Env)
    (cache : Cache) (client0 : Option AIClient)
    (h : truthy (init_reads env cache).base_url = false ∨
         truthy (init_reads env cache).model_name = false) :
    (init_ai_client construct env cache client0).success = false ∧
    (init_ai_client construct env cache client0).client = none ∧
    (init_ai_client construct env cache client0).env "HTTP_PROXY" =
      env "HTTP_PROXY" ∧
    (init_ai_client construct env cache client0).env "HTTPS_PROXY" =
      env "HTTPS_PROXY" := by
  have hcond : (truthy (init_reads env cache).base_url &&
      truthy (init_reads env cache).model_name) = false := by
    rcases h with h | h <;> simp [h]
  simp [init_ai_client, hcond]

/-- Witness for C4: `init_ai_client` on an environment missing the model
name fails, clears the slot and does not touch the proxy entries. -/
theorem init_missing_config_spec_witness :
    (init_ai_client constructOk envBaseOnly emptyCache none).success = false ∧
    (init_ai_client constructOk envBaseOnly emptyCache none).client = none ∧
    (init_ai_client constructOk envBaseOnly emptyCache none).env "HTTP_PROXY" =
      envBaseOnly "HTTP_PROXY" ∧
    (init_ai_client constructOk envBaseOnly emptyCache none).env "HTTPS_PROXY" =
      envBaseOnly "HTTPS_PROXY" :=
  init_missing_config_spec constructOk envBaseOnly emptyCache none
    (Or.inr (by decide))

/-- C5: when the resolved base URL and model name are both truthy,
`init_ai_client` writes a truthy resolved proxy URL into both proxy entries
of the environment, and removes both proxy entries when the resolved proxy
URL is falsy. -/
theorem init_proxy_spec (construct : Construct) (env : Env) (cache : Cache)
    (client0 : Option AIClient)
    (hb : truthy (init_reads env cache).base_url = true)
    (hm : truthy (init_reads env cache).model_name = true) :
    (∀ s, (init_reads env cache).proxy_url = some s → s ≠ "" →
      (init_ai_client construct env cache client0).env "HTTP_PROXY" = some s ∧
      (init_ai_client construct env cache client0).env "HTTPS_PROXY" = some s) ∧
    (truthy (init_reads env cache).proxy_url = false →
      (init_ai_client construct env cache client0).env "HTTP_PROXY" = none ∧
      (init_ai_client construct env cache client0).env "HTTPS_PROXY" = none) := by
  have hcond : (truthy (init_reads env cache).base_url &&
      truthy (init_reads env cache).model_name) = true := by
    simp [hb, hm]
  constructor
  · intro s hs hsne
    have ht : truthy (init_reads env cache).proxy_url = true := by
      simp [truthy, hs, bne_iff_ne, hsne]
    have hgd : (init_reads env cache).proxy_url.getD "" = s := by
      rw [hs]
      rfl
    cases hc : construct (init_reads env cache).api_key
        (init_reads env cache).base_url with
    | ok c => simp [init_ai_client, hcond, ht, hgd, hc, envSet]
    | error e => simp [init_ai_client, hcond, ht, hgd, hc, envSet]
  · intro ht
    cases hc : construct (init_reads env cache).api_key
        (init_reads env cache).base_url with
    | ok c => simp [init_ai_client, hcond, ht, hc, envPop]
    | error e => simp [init_ai_client, hcond, ht, hc, envPop]

/-- Witness for C5: with complete base settings, a concrete proxy URL is
written into both proxy entries, and with no proxy URL both entries are
removed even when present before the call. -/
theorem init_proxy_spec_witness :
    ((init_ai_client constructOk envExProxy emptyCache none).env "HTTP_PROXY" =
        some "http://10.0.0.1:8080" ∧
      (init_ai_client constructOk envExProxy emptyCache none).env "HTTPS_PROXY" =
        some "http://10.0.0.1:8080") ∧
    ((init_ai_client constructOk (envSet envEx "HTTP_PROXY" "old") emptyCache none).env
        "HTTP_PROXY" = none ∧
      (init_ai_client constructOk (envSet envEx "HTTP_PROXY" "old") emptyCache none).env
        "HTTPS_PROXY" = none) := by
  constructor
  · exact (init_proxy_spec constructOk envExProxy emptyCache none
      (by decide) (by decide)).1 "http://10.0.0.1:8080" (by decide) (by decide)
  · exact (init_proxy_spec constructOk (envSet envEx "HTTP_PROXY" "old") emptyCache none
      (by decide) (by decide)).2 (by decide)

/-- C6: `init_ai_client`, from any prior state, ends in exactly one of two
outcomes — success with a newly constructed handle stored in the slot, or
failure with the slot absent; in particular a construction error is caught,
the slot is set to absent and failure is returned. -/
theorem init_total_outcomes (construct : Construct) (env : Env) (cache : Cache)
    (client0 : Option AIClient) :
    (((init_ai_client construct env cache client0).success = true ∧
      ∃ c, construct (init_reads env cache).api_key
              (init_reads env cache).base_url = Except.ok c ∧
            (init_ai_client construct env cache client0).client = some c) ∨
     ((init_ai_client construct env cache client0).success = false ∧
      (init_ai_client construct env cache client0).client = none)) ∧
    (∀ e, construct (init_reads env cache).api_key
            (init_reads env cache).base_url = Except.error e →
      (init_ai_client construct env cache client0).success = false ∧
      (init_ai_client construct env cache client0).client = none) := by
  by_cases hcond : (truthy (init_reads env cache).base_url &&
      truthy (init_reads env cache).model_name) = true
  · cases hc : construct (init_reads env cache).api_key
        (init_reads env cache).base_url with
    | ok c =>
      refine ⟨Or.inl ⟨?_, c, rfl, ?_⟩, fun e he => ?_⟩
      · simp [init_ai_client, hcond, hc]
      · simp [init_ai_client, hcond, hc]
      · exact absurd he (by simp)
    | error e =>
      refine ⟨Or.inr ⟨?_, ?_⟩, fun e' he' => ⟨?_, ?_⟩⟩ <;>
        simp [init_ai_client, hcond, hc]
  · have hcond' : (truthy (init_reads env cache).base_url &&
        truthy (init_reads env cache).model_name) = false := by
      simpa using hcond
    refine ⟨Or.inr ⟨?_, ?_⟩, fun e he => ⟨?_, ?_⟩⟩ <;>
      simp [init_ai_client, hcond']

/-- Witness for C6: the error-catching part of `init_total_outcomes` at a
constructor that raises, with complete base settings. -/
theorem init_total_outcomes_witness :
    (init_ai_client constructFail envEx emptyCache none).success = false ∧
    (init_ai_client constructFail envEx emptyCache none).client = none :=
  (init_total_outcomes constructFail envEx emptyCache none).2 "boom" rfl

/-- C8: `get_ai_request_params` injects the reasoning-disabling extra option
when the thinking toggle is enabled; removes any "response_format" entry
when the response-format toggle is disabled; and returns the kwargs
unchanged when the thinking toggle is disabled and the response-format
toggle is enabled. -/
theorem get_ai_request_params_spec (et erf : Bool) (kwargs : Kwargs) :
    (et = true →
      lookupKw (get_ai_request_params et erf kwargs) "extra_body" =
        some thinkingExtraBody) ∧
    (erf = false →
      lookupKw (get_ai_request_params et erf kwargs) "response_format" = none) ∧
    (et = false → erf = true → get_ai_request_params et erf kwargs = kwargs) := by
  refine ⟨fun het => ?_, fun herf => ?_, fun het herf => ?_⟩
  · subst het
    simp only [get_ai_request_params, if_true]
    split
    · rw [lookupKw_delKw_ne _ _ _ (by decide)]
      exact lookupKw_setKw_self kwargs "extra_body" thinkingExtraBody
    · exact lookupKw_setKw_self kwargs "extra_body" thinkingExtraBody
  · subst herf
    simp only [get_ai_request_params, Bool.not_false, Bool.true_and]
    exact lookupKw_after_del_filter _ "response_format"
  · subst het
    subst herf
    simp [get_ai_request_params]

/-- Witness for C8: `get_ai_request_params_spec` at concrete toggles and
kwargs containing a response format. -/
theorem get_ai_request_params_spec_witness :
    lookupKw (get_ai_request_params true true
      [("response_format", PyVal.str "json")]) "extra_body" =
        some thinkingExtraBody ∧
    lookupKw (get_ai_request_params false false
      [("response_format", PyVal.str "json")]) "response_format" = none ∧
    get_ai_request_params false true [("response_format", PyVal.str "json")] =
      [("response_format", PyVal.str "json")] := by
  refine ⟨?_, ?_, ?_⟩
  · exact (get_ai_request_params_spec true true
      [("response_format", PyVal.str "json")]).1 rfl
  · exact (get_ai_request_params_spec false false
      [("response_format", PyVal.str "json")]).2.1 rfl
  · exact (get_ai_request_params_spec false true
      [("response_format", PyVal.str "json")]).2.2 rfl rfl

/-- C10: when the thinking toggle is enabled, `get_ai_request_params`
replaces an existing "extra_body" entry wholesale with the single
reasoning-disabling option, discarding whatever the caller had put there. -/
theorem extra_body_replacement_spec (erf : Bool) (kwargs : Kwargs) (v : PyVal)
    (_h : lookupKw kwargs "extra_body" = some v) :
    lookupKw (get_ai_request_params true erf kwargs) "extra_body" =
      some thinkingExtraBody := by
  simp only [get_ai_request_params, if_true]
  split
  · rw [lookupKw_delKw_ne _ _ _ (by decide)]
    exact lookupKw_setKw_self kwargs "extra_body" thinkingExtraBody
  · exact lookupKw_setKw_self kwargs "extra_body" thinkingExtraBody

/-- Witness for C10: a caller-supplied "extra_body" dict is discarded and
replaced by the fixed reasoning-disabling option. -/
theorem extra_body_replacement_spec_witness :
    lookupKw (get_ai_request_params true true
      [("extra_body", PyVal.dict [("caller_key", PyVal.str "caller_value")])])
      "extra_body" = some thinkingExtraBody :=
  extra_body_replacement_spec true
    [("extra_body", PyVal.dict [("caller_key", PyVal.str "caller_value")])]
    (PyVal.dict [("caller_key", PyVal.str "caller_value")]) rfl

theorem flag_eq_true_parse (env : Env) (cache : Cache) (key : String)
    (hc : cache key = none) :
    (pyLower (pyStr (get_ai_config env cache key (some "false")).1) == "true") =
      claimed_bool_parse (env key) := by
  rw [get_ai_config_fst env cache key (some "false") hc]
  simp only [os_getenv]
  cases he : env key with
  | some s => simp [pyStr, claimed_bool_parse]
  | none => decide

/-- C9 (amended): each boolean feature flag read on a cache miss parses to
true exactly when the stored value is present and case-insensitively equal
to "true" — except the headless flag, which is true unless the value is
present and case-insensitively "false" (so true when absent), and the
response-format flag, which is also true when the value is absent; the
webhook method and content type default to "POST" and "JSON" and are
upper-cased; every other value read with no default passes through
unmodified. -/
theorem flag_parsing_spec (env : Env) (cache : Cache) :
    (cache "PCURL_TO_MOBILE" = none →
      PCURL_TO_MOBILE env cache = claimed_bool_parse (env "PCURL_TO_MOBILE")) ∧
    (cache "LOGIN_IS_EDGE" = none →
      LOGIN_IS_EDGE env cache = claimed_bool_parse (env "LOGIN_IS_EDGE")) ∧
    (cache "RUNNING_IN_DOCKER" = none →
      RUNNING_IN_DOCKER env cache = claimed_bool_parse (env "RUNNING_IN_DOCKER")) ∧
    (cache "AI_DEBUG_MODE" = none →
      AI_DEBUG_MODE env cache = claimed_bool_parse (env "AI_DEBUG_MODE")) ∧
    (cache "SKIP_AI_ANALYSIS" = none →
      SKIP_AI_ANALYSIS env cache = claimed_bool_parse (env "SKIP_AI_ANALYSIS")) ∧
    (cache "ENABLE_THINKING" = none →
      ENABLE_THINKING env cache = claimed_bool_parse (env "ENABLE_THINKING")) ∧
    (cache "WEBHOOK_ENABLE_MARKDOWN" = none →
      WEBHOOK_ENABLE_MARKDOWN env cache =
        claimed_bool_parse (env "WEBHOOK_ENABLE_MARKDOWN")) ∧
    (cache "RUN_HEADLESS" = none →
      RUN_HEADLESS env cache =
        (match env "RUN_HEADLESS" with
         | some s => pyLower s != "false"
         | none => true)) ∧
    (cache "ENABLE_RESPONSE_FORMAT" = none →
      ENABLE_RESPONSE_FORMAT env cache =
        (match env "ENABLE_RESPONSE_FORMAT" with
         | some s => pyLower s == "true"
         | none => true)) ∧
    (cache "WEBHOOK_METHOD" = none →
      WEBHOOK_METHOD env cache = pyUpper ((env "WEBHOOK_METHOD").getD "POST")) ∧
    (cache "WEBHOOK_CONTENT_TYPE" = none →
      WEBHOOK_CONTENT_TYPE env cache =
        pyUpper ((env "WEBHOOK_CONTENT_TYPE").getD "JSON")) ∧
    (∀ k, cache k = none → (get_ai_config env cache k none).1 = env k) := by
  refine ⟨fun hc => ?_, fun hc => ?_, fun hc => ?_, fun hc => ?_, fun hc => ?_,
    fun hc => ?_, fun hc => ?_, fun hc => ?_, fun hc => ?_, fun hc => ?_,
    fun hc => ?_, fun k hc => ?_⟩
  · exact flag_eq_true_parse env cache "PCURL_TO_MOBILE" hc
  · exact flag_eq_true_parse env cache "LOGIN_IS_EDGE" hc
  · exact flag_eq_true_parse env cache "RUNNING_IN_DOCKER" hc
  · exact flag_eq_true_parse env cache "AI_DEBUG_MODE" hc
  · exact flag_eq_true_parse env cache "SKIP_AI_ANALYSIS" hc
  · exact flag_eq_true_parse env cache "ENABLE_THINKING" hc
  · exact flag_eq_true_parse env cache "WEBHOOK_ENABLE_MARKDOWN" hc
  · unfold RUN_HEADLESS
    rw [get_ai_config_fst env cache "RUN_HEADLESS" (some "true") hc]
    simp only [os_getenv]
    cases he : env "RUN_HEADLESS" with
    | some s => simp [pyStr]
    | none => decide
  · unfold ENABLE_RESPONSE_FORMAT
    rw [get_ai_config_fst env cache "ENABLE_RESPONSE_FORMAT" (some "true") hc]
    simp only [os_getenv]
    cases he : env "ENABLE_RESPONSE_FORMAT" with
    | some s => simp [pyStr]
    | none => decide
  · unfold WEBHOOK_METHOD
    rw [get_ai_config_fst env cache "WEBHOOK_METHOD" (some "POST") hc]
    simp only [os_getenv]
    cases he : env "WEBHOOK_METHOD" with
    | some s => simp [pyStr]
    | none => rfl
  · unfold WEBHOOK_CONTENT_TYPE
    rw [get_ai_config_fst env cache "WEBHOOK_CONTENT_TYPE" (some "JSON") hc]
    simp only [os_getenv]
    cases he : env "WEBHOOK_CONTENT_TYPE" with
    | some s => simp [pyStr]
    | none => rfl
  · rw [get_ai_config_fst env cache k none hc]
    simp only [os_getenv]
    cases env k <;> rfl

/-- C9 counterexample: for the response-format flag with the environment
value absent (and not cached), the claim's parse yields false, but the
module flag evaluates to true, because the source reads it with the default
"true". -/
theorem flag_parsing_counterexample :
    ENABLE_RESPONSE_FORMAT emptyEnv emptyCache = true ∧
    claimed_bool_parse (emptyEnv "ENABLE_RESPONSE_FORMAT") = false := by
  constructor <;> decide

/-- Witness for C9: `flag_parsing_spec` on a concrete environment with
"TRUE" for the pc-url flag and "False" for the headless flag, and the
default webhook method. -/
theorem flag_parsing_spec_witness :
    PCURL_TO_MOBILE envFlags emptyCache =
      claimed_bool_parse (envFlags "PCURL_TO_MOBILE") ∧
    RUN_HEADLESS envFlags emptyCache =
      (match envFlags "RUN_HEADLESS" with
       | some s => pyLower s != "false"
       | none => true) ∧
    WEBHOOK_METHOD envFlags emptyCache =
      pyUpper ((envFlags "WEBHOOK_METHOD").getD "POST") :=
  ⟨(flag_parsing_spec envFlags emptyCache).1 rfl,
   (flag_parsing_spec envFlags emptyCache).2.2.2.2.2.2.2.1 rfl,
   (flag_parsing_spec envFlags emptyCache).2.2.2.2.2.2.2.2.2.1 rfl⟩

end GoofishConfig
